import Mathlib

/-!
Verification of the adaptive decision-routing loop of the payment-operations
repository (Teacher–Student architecture).

Shallow embedding of:
* `backend/models.py`  — data model (enums, Transaction, Decision, CouncilDebate);
* `backend/student.py` — `OnlineLearner` (predict / learn / is_confident /
  get_stats / save / load), with the River classifier pipeline abstracted as a
  deterministic incremental learner (a prediction function of the training
  history);
* `backend/main.py`    — `process_transaction` (the Router: metrics update,
  failure buffering, confidence gate, escalation to the council, batch
  training, buffer clearing);
* `backend/council.py` — `LLMCouncil._call_agent` / `LLMCouncil.debate`,
  including a faithful model of Python `str.format` applied to the manager
  prompt template (whose literal JSON braces are not escaped in the source).

Machine floats of the source are modelled as rationals; wall-clock timestamps
and WebSocket emission are not modelled (emitted decisions/debates are returned
as explicit outputs instead).
-/

namespace PaymentOps

/-! ## Data model (`backend/models.py`) -/

/-- `TransactionStatus` enum. -/
inductive TransactionStatus where
  | success
  | failed
  | pending
deriving DecidableEq, Repr

/-- `PaymentMethod` enum. -/
inductive PaymentMethod where
  | credit_card
  | debit_card
  | upi
  | net_banking
  | wallet
deriving DecidableEq, Repr

/-- `ActionType` enum. -/
inductive ActionType where
  | switch_gateway
  | increase_retry
  | block_merchant
  | reduce_load
  | no_action
deriving DecidableEq, Repr

/-- `AgentSource` enum. -/
inductive AgentSource where
  | student
  | teacher
deriving DecidableEq, Repr

/-- The `.value` string of a `PaymentMethod` member. -/
def PaymentMethod.value : PaymentMethod → String
  | .credit_card => "credit_card"
  | .debit_card => "debit_card"
  | .upi => "upi"
  | .net_banking => "net_banking"
  | .wallet => "wallet"

/-- The `.value` string of an `ActionType` member. -/
def ActionType.value : ActionType → String
  | .switch_gateway => "switch_gateway"
  | .increase_retry => "increase_retry"
  | .block_merchant => "block_merchant"
  | .reduce_load => "reduce_load"
  | .no_action => "no_action"

/-- Python `ActionType(s)`: enum construction from a string; `none` models the
`ValueError` raised on an unrecognised value. -/
def ActionType.fromString : String → Option ActionType
  | "switch_gateway" => some .switch_gateway
  | "increase_retry" => some .increase_retry
  | "block_merchant" => some .block_merchant
  | "reduce_load" => some .reduce_load
  | "no_action" => some .no_action
  | _ => none

/-- `Transaction` (pydantic model).  `amount : float (>0)` is modelled as `ℚ`;
the creation timestamp is not modelled (no claim reads it). -/
structure Transaction where
  id : String
  amount : ℚ
  currency : String
  merchant_id : String
  bank_name : String
  payment_method : PaymentMethod
  status : TransactionStatus
  error_code : Option String
  latency_ms : ℕ
deriving DecidableEq, Repr

/-- `Decision` (pydantic model), timestamp not modelled. -/
structure Decision where
  action : ActionType
  reasoning : String
  confidence_score : ℚ
  agent_source : AgentSource
deriving DecidableEq, Repr

/-- `AgentArgument` (pydantic model). -/
structure AgentArgument where
  agent_name : String
  stance : String
  argument : String
  suggested_action : ActionType
deriving DecidableEq, Repr

/-- `CouncilDebate` (pydantic model). -/
structure CouncilDebate where
  risk_argument : AgentArgument
  growth_argument : AgentArgument
  manager_synthesis : String
  final_decision : Decision
  debate_duration_ms : ℕ
deriving DecidableEq, Repr

/-- `SystemMetrics` (pydantic model). -/
structure SystemMetrics where
  total_transactions : ℕ := 0
  successful_transactions : ℕ := 0
  failed_transactions : ℕ := 0
  success_rate : ℚ := 0
  student_decisions : ℕ := 0
  teacher_decisions : ℕ := 0
  student_confidence : ℚ := 0
  chaos_active : Bool := false
  chaos_bank : Option String := none
deriving Repr

/-! ## Student (`backend/student.py`) -/

/-- Feature dictionary produced by `OnlineLearner._extract_features`.
All values are numeric in the source; modelled as `ℚ`. -/
structure FeatureVec where
  amount : ℚ
  amount_log : ℚ
  bank : ℚ
  method : ℚ
  error : ℚ
  latency : ℚ
  is_high_value : ℚ
  is_timeout : ℚ
  is_fraud_suspect : ℚ
deriving DecidableEq, Repr

/-- `BANK_MAP` with its `.get(_, 7)` default. -/
def BANK_MAP (name : String) : ℚ :=
  if name = "HDFC" then 0 else if name = "ICICI" then 1
  else if name = "SBI" then 2 else if name = "Axis" then 3
  else if name = "Kotak" then 4 else if name = "Yes Bank" then 5
  else if name = "PNB" then 6 else if name = "BOB" then 7
  else 7

/-- `METHOD_MAP` with its `.get(_, 4)` default (applied to `.value`). -/
def METHOD_MAP (m : PaymentMethod) : ℚ :=
  match m with
  | .credit_card => 0
  | .debit_card => 1
  | .upi => 2
  | .net_banking => 3
  | .wallet => 4

/-- `ERROR_MAP` with its `.get(_, 5)` default. -/
def ERROR_MAP (e : String) : ℚ :=
  if e = "E001_TIMEOUT" then 0 else if e = "E002_INSUFFICIENT_FUNDS" then 1
  else if e = "E003_BANK_DECLINED" then 2 else if e = "E004_NETWORK_ERROR" then 3
  else if e = "E005_FRAUD_SUSPECTED" then 4 else if e = "E006_LIMIT_EXCEEDED" then 5
  else 5

/-- `ACTION_MAP` (total on the enum, so the `.get(_, 4)` default never fires). -/
def ACTION_MAP : ActionType → ℕ
  | .switch_gateway => 0
  | .increase_retry => 1
  | .block_merchant => 2
  | .reduce_load => 3
  | .no_action => 4

/-- `REVERSE_ACTION_MAP` with its `.get(_, NO_ACTION)` default. -/
def REVERSE_ACTION_MAP : ℕ → ActionType
  | 0 => .switch_gateway
  | 1 => .increase_retry
  | 2 => .block_merchant
  | 3 => .reduce_load
  | 4 => .no_action
  | _ => .no_action

/-- Rational approximation of the floating-point square root used for the
`amount_log` feature (`max(1, amount) ** 0.5`); like the source's float sqrt it
approximates the real square root.  No claim depends on its exact value: the
feature is consumed only by the abstracted classifier. -/
def ratSqrt (q : ℚ) : ℚ :=
  (Nat.sqrt (q.num.toNat * q.den) : ℚ) / (q.den : ℚ)

/-- `OnlineLearner._extract_features`. -/
def extract_features (t : Transaction) : FeatureVec where
  amount := t.amount
  amount_log := ratSqrt (max 1 t.amount)
  bank := BANK_MAP t.bank_name
  method := METHOD_MAP t.payment_method
  error := match t.error_code with
    | some e => ERROR_MAP e
    | none => -1
  latency := (t.latency_ms : ℚ)
  is_high_value := if 10000 < t.amount then 1 else 0
  is_timeout := if t.error_code = some "E001_TIMEOUT" then 1 else 0
  is_fraud_suspect := if t.error_code = some "E005_FRAUD_SUSPECTED" then 1 else 0

/-- The River pipeline (`StandardScaler |> HoeffdingTreeClassifier`), abstracted
as a deterministic incremental classifier: the prediction is an arbitrary
function of the training history consumed so far.  `predictFn` returns the
probability map of `predict_proba_one` as an association list in dict iteration
order (empty when the model has not learned enough), or an error message when
the underlying prediction raises. -/
structure RiverModel where
  history : List (FeatureVec × ℕ)
  predictFn : List (FeatureVec × ℕ) → FeatureVec → Except String (List (ℕ × ℚ))

/-- `model.predict_proba_one(features)` (read-only in River). -/
def RiverModel.predict_proba_one (m : RiverModel) (f : FeatureVec) :
    Except String (List (ℕ × ℚ)) :=
  m.predictFn m.history f

/-- `model.learn_one(features, label)`. -/
def RiverModel.learn_one (m : RiverModel) (f : FeatureVec) (label : ℕ) : RiverModel :=
  { m with history := m.history ++ [(f, label)] }

/-- `collections.deque(maxlen := n)` append: keep the most recent `n` items. -/
def pushBounded (maxlen : ℕ) (xs : List α) (x : α) : List α :=
  let ys := xs ++ [x]
  ys.drop (ys.length - maxlen)

/-- The last `n` elements of a list (`deque(iterable, maxlen := n)`). -/
def takeLast (n : ℕ) (xs : List α) : List α :=
  xs.drop (xs.length - n)

/-- One entry of `recent_decisions`; the source stores the `.value` strings of
the two actions, modelled here by the enum members themselves. -/
structure RecentDecision where
  transaction_id : String
  council_action : ActionType
  student_would_predict : ActionType
  confidence : ℚ
deriving DecidableEq, Repr

/-- `OnlineLearner` mutable state. -/
structure OnlineLearner where
  confidence_threshold : ℚ
  model : RiverModel
  samples_seen : ℕ
  correct_predictions : ℕ
  confidence_history : List ℚ
  recent_decisions : List RecentDecision

/-- `OnlineLearner.__init__` (the freshly constructed River pipeline is the
`model` argument). -/
def OnlineLearner.init (confidence_threshold : ℚ) (model : RiverModel) : OnlineLearner where
  confidence_threshold := confidence_threshold
  model := model
  samples_seen := 0
  correct_predictions := 0
  confidence_history := []
  recent_decisions := []

/-- `max(probas, key=probas.get)` together with the `probas[best_class]`
lookup: the first key attaining the maximal probability, paired with that
probability (Python's `max` keeps the first of several maxima). -/
def argmaxFirst (p : ℕ × ℚ) (rest : List (ℕ × ℚ)) : ℕ × ℚ :=
  rest.foldl (fun best q => if best.2 < q.2 then q else best) p

/-- `OnlineLearner.predict`.  The source's `try`/`except` is embedded through
the `Except` result of the classifier: a raised prediction error is absorbed
into the untrained response, so the Lean function is total.  Returns the
`(action, confidence)` pair and the post-call learner (`predict` appends to
`confidence_history` on the successful non-empty path). -/
def OnlineLearner.predict (l : OnlineLearner) (t : Transaction) :
    (ActionType × ℚ) × OnlineLearner :=
  let features := extract_features t
  match l.model.predict_proba_one features with
  | .error _ => ((ActionType.no_action, 0), l)
  | .ok probas =>
    match probas with
    | [] => ((ActionType.no_action, 0), l)
    | p :: rest =>
      let best := argmaxFirst p rest
      let confidence := best.2
      let action := REVERSE_ACTION_MAP best.1
      ((action, confidence),
        { l with confidence_history := pushBounded 100 l.confidence_history confidence })

/-- `OnlineLearner.learn`. -/
def OnlineLearner.learn (l : OnlineLearner) (t : Transaction)
    (council_decision : Decision) : OnlineLearner :=
  let features := extract_features t
  let label := ACTION_MAP council_decision.action
  let r := l.predict t
  let predicted_action := r.1.1
  let confidence := r.1.2
  let l1 := r.2
  let l2 :=
    if predicted_action = council_decision.action then
      { l1 with correct_predictions := l1.correct_predictions + 1 }
    else l1
  let l3 := { l2 with
    model := l2.model.learn_one features label,
    samples_seen := l2.samples_seen + 1 }
  let entry : RecentDecision :=
    ⟨t.id, council_decision.action, predicted_action, confidence⟩
  { l3 with recent_decisions := pushBounded 50 l3.recent_decisions entry }

/-- `OnlineLearner.get_average_confidence`. -/
def OnlineLearner.get_average_confidence (l : OnlineLearner) : ℚ :=
  if l.confidence_history = [] then 0
  else l.confidence_history.sum / (l.confidence_history.length : ℚ)

/-- `OnlineLearner.get_accuracy`. -/
def OnlineLearner.get_accuracy (l : OnlineLearner) : ℚ :=
  if l.samples_seen = 0 then 0
  else (l.correct_predictions : ℚ) / (l.samples_seen : ℚ)

/-- `OnlineLearner.is_confident`: the dual gate
`confidence ≥ confidence_threshold and samples_seen ≥ 20`.  Returns the
`(is_confident, action, confidence)` triple and the post-call learner (the
internal `predict` call may append to `confidence_history`). -/
def OnlineLearner.is_confident (l : OnlineLearner) (t : Transaction) :
    (Bool × ActionType × ℚ) × OnlineLearner :=
  let r := l.predict t
  let action := r.1.1
  let confidence := r.1.2
  let l1 := r.2
  let conf : Bool :=
    decide (l1.confidence_threshold ≤ confidence) && decide (20 ≤ l1.samples_seen)
  ((conf, action, confidence), l1)

/-- The snapshot returned by `OnlineLearner.get_stats`. -/
structure StudentStats where
  samples_seen : ℕ
  accuracy : ℚ
  average_confidence : ℚ
  confidence_threshold : ℚ
  is_ready : Bool
  recent_decisions : List RecentDecision
deriving DecidableEq, Repr

/-- `OnlineLearner.get_stats`: the method body only reads `self`, so its
embedding is a pure function of the state. -/
def OnlineLearner.get_stats (l : OnlineLearner) : StudentStats where
  samples_seen := l.samples_seen
  accuracy := l.get_accuracy
  average_confidence := l.get_average_confidence
  confidence_threshold := l.confidence_threshold
  is_ready := decide (20 ≤ l.samples_seen)
  recent_decisions := takeLast 5 l.recent_decisions

/-- The pickled dict written by `OnlineLearner.save` (disk I/O abstracted:
the blob is returned instead of written to a file path). -/
structure SavedStudent where
  model : RiverModel
  samples_seen : ℕ
  correct_predictions : ℕ
  confidence_history : List ℚ

/-- `OnlineLearner.save`. -/
def OnlineLearner.save (l : OnlineLearner) : SavedStudent where
  model := l.model
  samples_seen := l.samples_seen
  correct_predictions := l.correct_predictions
  confidence_history := l.confidence_history

/-- `OnlineLearner.load` on a successfully unpickled blob (the missing-file and
unpickle-failure branches of the source return `False` and leave the state
untouched).  `deque(data, maxlen=100)` keeps the last 100 entries. -/
def OnlineLearner.load (l : OnlineLearner) (data : SavedStudent) : OnlineLearner :=
  { l with
    model := data.model,
    samples_seen := data.samples_seen,
    correct_predictions := data.correct_predictions,
    confidence_history := takeLast 100 data.confidence_history }

/-! ## Router (`backend/main.py`, `process_transaction`) -/

/-- The configuration knobs of `AppConfig` used by `process_transaction`
(`FAILURE_THRESHOLD = 5`, `STUDENT_CONFIDENCE_THRESHOLD = 0.90` in the
source). -/
structure AppConfig where
  failure_threshold : ℕ
  student_confidence_threshold : ℚ

/-- The source's `AppConfig` values. -/
def defaultConfig : AppConfig where
  failure_threshold := 5
  student_confidence_threshold := mkRat 9 10

/-- The mutable fields of `AppState` touched by `process_transaction`. -/
structure RouterState where
  metrics : SystemMetrics
  recent_failures : List Transaction
  learner : OnlineLearner

/-- Fresh `AppState` (fresh metrics, empty failure buffer, fresh learner built
around the library classifier `model`). -/
def RouterState.init (cfg : AppConfig) (model : RiverModel) : RouterState where
  metrics := {}
  recent_failures := []
  learner := OnlineLearner.init cfg.student_confidence_threshold model

/-- The fast-path reasoning string
`f"Student model confident ({confidence:.1%}) based on {n} samples"`; the
percent formatting of the float is approximated by `toString` on `ℚ`. -/
def studentReasoning (confidence : ℚ) (n : ℕ) : String :=
  "Student model confident (" ++ toString confidence ++ ") based on "
    ++ toString n ++ " samples"

/-- Outcome of one `process_transaction` call: the new state plus what was
emitted over the WebSocket (the decision, if any, and the council debate, if a
deliberation occurred). -/
structure ProcOut where
  state : RouterState
  decision : Option Decision
  debate : Option CouncilDebate

/-- `process_transaction` (main.py lines 146–202).  The council collaborator
`state.council.debate` is the function parameter `council`; WebSocket emission
is returned, not transmitted.  Note the source appends every non-success
transaction to `recent_failures` *before* the confidence gate. -/
def process_transaction (cfg : AppConfig) (council : List Transaction → CouncilDebate)
    (s : RouterState) (txn : Transaction) : ProcOut :=
  let m0 := s.metrics
  let m1 := { m0 with total_transactions := m0.total_transactions + 1 }
  let m2 :=
    if txn.status = .success then
      { m1 with successful_transactions := m1.successful_transactions + 1 }
    else
      { m1 with failed_transactions := m1.failed_transactions + 1 }
  let failures :=
    if txn.status = .success then s.recent_failures
    else s.recent_failures ++ [txn]
  let m3 :=
    if 0 < m2.total_transactions then
      { m2 with success_rate :=
          (m2.successful_transactions : ℚ) / (m2.total_transactions : ℚ) }
    else m2
  if txn.status ≠ .failed then
    ⟨⟨m3, failures, s.learner⟩, none, none⟩
  else
    let r := s.learner.is_confident txn
    let conf := r.1.1
    let predicted_action := r.1.2.1
    let confidence := r.1.2.2
    let learner1 := r.2
    let m4 := { m3 with student_confidence := confidence }
    if conf then
      let decision : Decision :=
        ⟨predicted_action, studentReasoning confidence learner1.samples_seen,
          confidence, .student⟩
      let m5 := { m4 with student_decisions := m4.student_decisions + 1 }
      ⟨⟨m5, failures, learner1⟩, some decision, none⟩
    else if cfg.failure_threshold ≤ failures.length then
      let debate := council failures
      let decision := debate.final_decision
      let m5 := { m4 with teacher_decisions := m4.teacher_decisions + 1 }
      let learner2 := failures.foldl (fun l t => l.learn t decision) learner1
      ⟨⟨m5, [], learner2⟩, some decision, some debate⟩
    else
      ⟨⟨m4, failures, learner1⟩, none, none⟩

/-- Sequential processing of a list of transactions (the transaction loop),
keeping only the final state. -/
def runTxns (cfg : AppConfig) (council : List Transaction → CouncilDebate) :
    RouterState → List Transaction → RouterState
  | s, [] => s
  | s, t :: ts => runTxns cfg council (process_transaction cfg council s t).state ts

/-! ## Council (`backend/council.py`) -/

/-- Python exceptions that can escape `LLMCouncil.debate`. -/
inductive PyError where
  | keyError (key : String)
  | valueError (msg : String)
deriving DecidableEq, Repr

/-- A parsed JSON object returned by a role call, with the keys the source
reads via `.get`; absent keys are `none`.  `confidence` is a JSON number,
modelled as `ℚ`. -/
structure AgentResponse where
  stance : Option String := none
  argument : Option String := none
  suggested_action : Option String := none
  synthesis : Option String := none
  final_action : Option String := none
  confidence : Option ℚ := none

/-- The reasoning backend (`Groq` chat completion plus `json.loads`):
system prompt and user context in, either a parsed JSON object or a raised
exception out. -/
def GroqBackend := String → String → Except String AgentResponse

/-- `LLMCouncil._call_agent`: any exception from the backend call or JSON
parsing is absorbed into the fixed neutral fallback dict. -/
def LLMCouncil.call_agent (groq : GroqBackend) (system_prompt context : String) :
    AgentResponse :=
  match groq system_prompt context with
  | .ok r => r
  | .error _ =>
    { stance := some "moderate"
      argument := some "Unable to analyze due to API error"
      suggested_action := some "no_action" }

/-- `RISK_AGENT_PROMPT` (literal braces written with escapes). -/
def RISK_AGENT_PROMPT : String :=
  "You are the RISK AGENT in a payment operations council.\nYour personality: Paranoid, security-focused, hates fraud.\nYour priority: Protect the system from fraud and abuse at all costs.\nYou would rather block a legitimate transaction than let a fraudulent one through.\n\nAnalyze the failed transactions and argue for the most CONSERVATIVE action.\nConsider: fraud patterns, unusual amounts, bank reliability, error patterns.\n\nRespond in JSON format:\n\x7b\n    \"stance\": \"conservative/moderate/aggressive\",\n    \"argument\": \"Your reasoning in 2-3 sentences\",\n    \"suggested_action\": \"switch_gateway|increase_retry|block_merchant|reduce_load|no_action\"\n\x7d"

/-- `GROWTH_AGENT_PROMPT`. -/
def GROWTH_AGENT_PROMPT : String :=
  "You are the GROWTH AGENT in a payment operations council.\nYour personality: Revenue-obsessed, hates lost sales, aggressive optimizer.\nYour priority: Maximize successful transactions and revenue recovery.\nEvery failed transaction is lost money that must be recovered.\n\nAnalyze the failed transactions and argue for the most AGGRESSIVE recovery action.\nConsider: revenue impact, retry success probability, customer experience.\n\nRespond in JSON format:\n\x7b\n    \"stance\": \"conservative/moderate/aggressive\",\n    \"argument\": \"Your reasoning in 2-3 sentences\",\n    \"suggested_action\": \"switch_gateway|increase_retry|block_merchant|reduce_load|no_action\"\n\x7d"

/-- `MANAGER_AGENT_PROMPT`.  The six `{name}` replacement fields are genuine
format fields; the braces of the trailing JSON example are *literal* text in
the source (not escaped as `{{`/`}}` there), reproduced here verbatim. -/
def MANAGER_AGENT_PROMPT : String :=
  "You are the MANAGER AGENT in a payment operations council.\nYou must synthesize the arguments from the Risk Agent and Growth Agent.\nMake a balanced decision that optimizes for both security AND revenue.\n\nRisk Agent\x27s position:\n{risk_argument}\n\nGrowth Agent\x27s position:\n{growth_argument}\n\nFailed transaction context:\n- Total failed: {failed_count}\n- Common error: {common_error}\n- Affected banks: {affected_banks}\n- Total amount at risk: ₹{total_amount}\n\nMake the FINAL decision. Respond in JSON format:\x7b\n    \"synthesis\": \"Your balanced reasoning in 2-3 sentences\",\n    \"final_action\": \"switch_gateway|increase_retry|block_merchant|reduce_load|no_action\",\n    \"confidence\": 0.0-1.0\n\x7d"

/-- One token of a Python format string: literal text or a `{name}` (or
`{name:spec}` / `{name!conv}`) replacement field. -/
inductive FmtToken where
  | lit (s : String)
  | field (name : String)
deriving DecidableEq, Repr

/-- Scanner of Python `str.format` templates, structurally recursive on a fuel
bound (each step consumes at least one character, so `length + 1` fuel is
never exhausted): `{{`/`}}` are escaped braces; a bare `{` opens a replacement
field whose name runs to the first `:`, `!` or `}`; the rest of the field (the
format spec) is skipped to the closing `}`.  (The templates in the source
contain no nested braces inside specs.) -/
def parseTokensF : ℕ → List Char → List FmtToken
  | 0, _ => []
  | _, [] => []
  | fuel + 1, '\x7b' :: '\x7b' :: rest => .lit "\x7b" :: parseTokensF fuel rest
  | fuel + 1, '\x7d' :: '\x7d' :: rest => .lit "\x7d" :: parseTokensF fuel rest
  | fuel + 1, '\x7b' :: rest =>
    let name := rest.takeWhile (fun c => !(c == ':' || c == '!' || c == '\x7d'))
    let after := rest.dropWhile (fun c => !(c == ':' || c == '!' || c == '\x7d'))
    let rest3 := (after.dropWhile (fun c => !(c == '\x7d'))).drop 1
    .field (String.mk name) :: parseTokensF fuel rest3
  | fuel + 1, c :: rest => .lit (String.mk [c]) :: parseTokensF fuel rest

/-- Tokenisation of a template. -/
def parseTokens (l : List Char) : List FmtToken :=
  parseTokensF (l.length + 1) l

/-- Keyword-argument lookup of `str.format`. -/
def lookupArg (args : List (String × String)) (k : String) : Option String :=
  (args.find? (fun p => p.1 == k)).map (·.2)

/-- Rendering a parsed template: fields are substituted in scan order; the
first field whose name is not among the keyword arguments raises `KeyError`
with that name. -/
def renderTokens (args : List (String × String)) : List FmtToken → Except PyError String
  | [] => .ok ""
  | .lit s :: rest => (renderTokens args rest).map (s ++ ·)
  | .field k :: rest =>
    match lookupArg args k with
    | none => .error (.keyError k)
    | some v => (renderTokens args rest).map (v ++ ·)

/-- Python `template.format(**args)`. -/
def formatStr (template : String) (args : List (String × String)) :
    Except PyError String :=
  renderTokens args (parseTokens template.data)

/-- Python `str(o)` for an optional string (`None` prints as `"None"`);
used for the transaction context lines. -/
def pyStrOpt : Option String → String
  | some s => s
  | none => "None"

/-- First-occurrence deduplication, standing in for Python's `set` iteration
order (which is unspecified; nothing downstream observes the order). -/
def dedupFirst (xs : List String) : List String :=
  xs.foldl (fun acc x => if x ∈ acc then acc else acc ++ [x]) []

/-- `max(set(errors), key=errors.count)`: an element of maximal multiplicity
(first occurrence wins among ties, standing in for set order). -/
def mostCommon (xs : List String) : String :=
  match dedupFirst xs with
  | [] => "Unknown"
  | y :: ys => ys.foldl (fun best e => if xs.count best < xs.count e then e else best) y

/-- `LLMCouncil._prepare_context`.  Numeric `f`-string formatting of the float
amounts is approximated by `toString` on `ℚ`; the content of this string only
flows into the abstract backend. -/
def prepareContext (failed_transactions : List Transaction) : String :=
  if failed_transactions = [] then "No failed transactions to analyze."
  else
    let numbered := (failed_transactions.take 10).enum.map (fun p =>
      toString (p.1 + 1) ++ ". Bank: " ++ p.2.bank_name ++ ", Amount: ₹"
        ++ toString p.2.amount ++ ", Error: " ++ pyStrOpt p.2.error_code
        ++ ", Method: " ++ p.2.payment_method.value)
    let total_amount := (failed_transactions.map (·.amount)).sum
    let banks := dedupFirst (failed_transactions.map (·.bank_name))
    let summary := "\nSummary: " ++ toString failed_transactions.length
      ++ " failures, ₹" ++ toString total_amount ++ " at risk, Banks: "
      ++ String.intercalate ", " banks
    String.intercalate "\n" ("Failed Transaction Analysis:" :: numbered ++ [summary])

/-- `LLMCouncil.debate`, returning `Except` since the body can raise:
`ActionType(...)` on an unrecognised action string raises `ValueError`, and
`MANAGER_AGENT_PROMPT.format(...)` can raise `KeyError`.  The deliberation
wall-clock duration is not modelled (recorded as 0). -/
def LLMCouncil.debate (groq : GroqBackend) (failed_transactions : List Transaction) :
    Except PyError CouncilDebate :=
  let context := prepareContext failed_transactions
  let risk_response := LLMCouncil.call_agent groq RISK_AGENT_PROMPT context
  match ActionType.fromString (risk_response.suggested_action.getD "no_action") with
  | none => .error (.valueError (risk_response.suggested_action.getD "no_action"))
  | some risk_action =>
    let risk_arg : AgentArgument :=
      ⟨"Risk Agent", risk_response.stance.getD "moderate",
        risk_response.argument.getD "No argument provided", risk_action⟩
    let growth_response := LLMCouncil.call_agent groq GROWTH_AGENT_PROMPT context
    match ActionType.fromString (growth_response.suggested_action.getD "no_action") with
    | none => .error (.valueError (growth_response.suggested_action.getD "no_action"))
    | some growth_action =>
      let growth_arg : AgentArgument :=
        ⟨"Growth Agent", growth_response.stance.getD "moderate",
          growth_response.argument.getD "No argument provided", growth_action⟩
      let total_amount := (failed_transactions.map (·.amount)).sum
      let banks := dedupFirst (failed_transactions.map (·.bank_name))
      let errors := failed_transactions.filterMap (·.error_code)
      let common_error := if errors = [] then "Unknown" else mostCommon errors
      match formatStr MANAGER_AGENT_PROMPT
          [("risk_argument", risk_arg.stance ++ ": " ++ risk_arg.argument),
           ("growth_argument", growth_arg.stance ++ ": " ++ growth_arg.argument),
           ("failed_count", toString failed_transactions.length),
           ("common_error", common_error),
           ("affected_banks", String.intercalate ", " banks),
           ("total_amount", toString total_amount)] with
      | .error e => .error e
      | .ok manager_prompt =>
        let manager_response := LLMCouncil.call_agent groq manager_prompt context
        match ActionType.fromString (manager_response.final_action.getD "no_action") with
        | none => .error (.valueError (manager_response.final_action.getD "no_action"))
        | some final_action =>
          let final_decision : Decision :=
            ⟨final_action, manager_response.synthesis.getD "No synthesis provided",
              manager_response.confidence.getD (mkRat 1 2), .teacher⟩
          .ok ⟨risk_arg, growth_arg, manager_response.synthesis.getD "",
            final_decision, 0⟩

/-! ## Auxiliary notions used by the verification -/

/-- The name of the first replacement field of a token list that is missing
from the supplied keyword names — the field on which `str.format` raises
`KeyError`. -/
def firstMissing : List FmtToken → List String → Option String
  | [], _ => none
  | .lit _ :: rest, ks => firstMissing rest ks
  | .field k :: rest, ks => if k ∈ ks then firstMissing rest ks else some k

/-- A backend whose every role call fails (`total backend failure`). -/
def groqFail : GroqBackend := fun _ _ => Except.error "API error"

/-- A read-only call on the Student: `predict(t)` or `get_stats()`. -/
inductive ReadOp where
  | pred (t : Transaction)
  | stats

/-- Sequential execution of read-only calls, threading the learner state
(`predict` may append to `confidence_history`; `get_stats` computes its
snapshot and returns). -/
def runReadOps : OnlineLearner → List ReadOp → OnlineLearner
  | l, [] => l
  | l, .pred t :: ops => runReadOps (l.predict t).2 ops
  | l, .stats :: ops =>
    let _snapshot := l.get_stats
    runReadOps l ops

/-- The outputs of `predict` over a fixed sequence of test events, threading
the learner state between calls. -/
def predictSeq : OnlineLearner → List Transaction → List (ActionType × ℚ)
  | _, [] => []
  | l, t :: ts => (l.predict t).1 :: predictSeq (l.predict t).2 ts

/-- Student states reachable from a fresh `OnlineLearner` by any sequence of
`predict` / `learn` calls (`get_stats` does not produce a state). -/
inductive StudentReachable : OnlineLearner → Prop where
  | init (th : ℚ) (m : RiverModel) : StudentReachable (OnlineLearner.init th m)
  | predictStep {l : OnlineLearner} (t : Transaction) :
      StudentReachable l → StudentReachable (l.predict t).2
  | learnStep {l : OnlineLearner} (t : Transaction) (d : Decision) :
      StudentReachable l → StudentReachable (l.learn t d)

/-! ## Concrete instances (used by witnesses and counterexamples) -/

/-- A classifier that has not learned anything yet: `predict_proba_one`
returns the empty probability map, as the fresh River pipeline does. -/
def untrainedModel : RiverModel :=
  ⟨[], fun _ _ => Except.ok []⟩

/-- A classifier whose prediction always raises. -/
def errModel : RiverModel :=
  ⟨[], fun _ _ => Except.error "Prediction error"⟩

/-- A deterministic classifier that is fully sure (probability 1) of
`no_action` on amounts up to 100 and hesitant (probability 1/2) above. -/
def probeModel : RiverModel :=
  ⟨[], fun _hist f => Except.ok [(4, if f.amount ≤ 100 then 1 else mkRat 1 2)]⟩

/-- A failed transaction with the given amount. -/
def mkTxn (amt : ℚ) : Transaction :=
  ⟨"t", amt, "INR", "Amazon", "HDFC", .upi, .failed, some "E001_TIMEOUT", 100⟩

/-- A pending transaction. -/
def pendTxn : Transaction :=
  ⟨"p", 50, "INR", "Amazon", "HDFC", .upi, .pending, none, 100⟩

/-- A successful transaction. -/
def succTxn : Transaction :=
  ⟨"s", 50, "INR", "Amazon", "HDFC", .upi, .success, none, 100⟩

/-- A council collaborator that records the size of the deliberated batch in
`debate_duration_ms` (observing which buffer escalation fired on). -/
def councilProbe : List Transaction → CouncilDebate := fun txns =>
  ⟨⟨"Risk Agent", "conservative", "a", .block_merchant⟩,
   ⟨"Growth Agent", "aggressive", "b", .increase_retry⟩,
   "s", ⟨.no_action, "r", mkRat 1 2, .teacher⟩, txns.length⟩

/-- Fresh learner around the untrained classifier, at the source's 0.90
confidence threshold. -/
def freshLearner : OnlineLearner := OnlineLearner.init (mkRat 9 10) untrainedModel

/-- Fresh learner around the always-raising classifier. -/
def errLearner : OnlineLearner := OnlineLearner.init (mkRat 9 10) errModel

/-- A learner with some accumulated state (for the save/load round-trip). -/
def exLearner : OnlineLearner where
  confidence_threshold := mkRat 9 10
  model := probeModel
  samples_seen := 3
  correct_predictions := 2
  confidence_history := [mkRat 1 2, mkRat 3 4]
  recent_decisions := []

/-- A learner past warm-up whose classifier is fully confident on small
amounts (fast-path conditions hold). -/
def confLearner : OnlineLearner where
  confidence_threshold := mkRat 9 10
  model := probeModel
  samples_seen := 20
  correct_predictions := 0
  confidence_history := []
  recent_decisions := []

/-- Router state around `confLearner` with an empty buffer. -/
def confState : RouterState := ⟨{}, [], confLearner⟩

/-- Fresh router state at the source configuration, with the probe
classifier. -/
def cexState0 : RouterState := RouterState.init defaultConfig probeModel

/-- State after 25 failed small-amount transactions: four escalations of
exactly 5 events each have trained the Student to 20 samples, and the next 5
failures all took the fast path while still being appended to the buffer. -/
def cexState25 : RouterState :=
  runTxns defaultConfig councilProbe cexState0 (List.replicate 25 (mkTxn 50))

/-- Processing one more failed transaction on which the Student hesitates:
escalation fires on a 6-element buffer. -/
def cexOut26 : ProcOut :=
  process_transaction defaultConfig councilProbe cexState25 (mkTxn 200)

/-- State after 20 failed small-amount transactions (buffer just cleared,
Student warmed up). -/
def cexState20 : RouterState :=
  runTxns defaultConfig councilProbe cexState0 (List.replicate 20 (mkTxn 50))

/-- Processing a 21st failure on which the Student is confident: fast path,
yet the buffer grows. -/
def cexOut21 : ProcOut :=
  process_transaction defaultConfig councilProbe cexState20 (mkTxn 50)

/-- Threshold-1 configuration (lowest escalation threshold), used to exhibit
single-event escalations concretely. -/
def cfgOne : AppConfig := ⟨1, mkRat 9 10⟩

/-- Fresh router state at threshold 1 with the untrained classifier. -/
def stateOne : RouterState := RouterState.init cfgOne untrainedModel

/-! ## Helper lemmas on the Student -/

/-- `predict` never changes `samples_seen`. -/
theorem predict_samples (l : OnlineLearner) (t : Transaction) :
    ((l.predict t).2).samples_seen = l.samples_seen := by
  cases hp : l.model.predict_proba_one (extract_features t) with
  | error e => simp [OnlineLearner.predict, hp]
  | ok probas => cases probas <;> simp [OnlineLearner.predict, hp]

/-- `predict` never changes `correct_predictions`. -/
theorem predict_correct (l : OnlineLearner) (t : Transaction) :
    ((l.predict t).2).correct_predictions = l.correct_predictions := by
  cases hp : l.model.predict_proba_one (extract_features t) with
  | error e => simp [OnlineLearner.predict, hp]
  | ok probas => cases probas <;> simp [OnlineLearner.predict, hp]

/-- `predict` never changes the classifier. -/
theorem predict_model (l : OnlineLearner) (t : Transaction) :
    ((l.predict t).2).model = l.model := by
  cases hp : l.model.predict_proba_one (extract_features t) with
  | error e => simp [OnlineLearner.predict, hp]
  | ok probas => cases probas <;> simp [OnlineLearner.predict, hp]

/-- `predict` never changes the confidence threshold. -/
theorem predict_threshold (l : OnlineLearner) (t : Transaction) :
    ((l.predict t).2).confidence_threshold = l.confidence_threshold := by
  cases hp : l.model.predict_proba_one (extract_features t) with
  | error e => simp [OnlineLearner.predict, hp]
  | ok probas => cases probas <;> simp [OnlineLearner.predict, hp]

/-- The pair returned by `predict` is a function of the classifier alone. -/
theorem predict_fst_of_model_eq (l₁ l₂ : OnlineLearner) (t : Transaction)
    (h : l₁.model = l₂.model) : (l₁.predict t).1 = (l₂.predict t).1 := by
  unfold OnlineLearner.predict
  rw [h]
  cases hp : l₂.model.predict_proba_one (extract_features t) with
  | error e => simp [hp]
  | ok probas => cases probas <;> simp [hp]

/-- `learn` increments `samples_seen` by exactly one. -/
theorem learn_samples (l : OnlineLearner) (t : Transaction) (d : Decision) :
    (l.learn t d).samples_seen = l.samples_seen + 1 := by
  unfold OnlineLearner.learn
  by_cases hc : (l.predict t).1.1 = d.action <;> simp [hc, predict_samples]

/-- `learn` increments `correct_predictions` by at most one. -/
theorem learn_correct_le (l : OnlineLearner) (t : Transaction) (d : Decision) :
    (l.learn t d).correct_predictions ≤ l.correct_predictions + 1 := by
  unfold OnlineLearner.learn
  by_cases hc : (l.predict t).1.1 = d.action <;> simp [hc, predict_correct]

/-- Training a whole batch adds the batch length to `samples_seen`. -/
theorem foldl_learn_samples (d : Decision) :
    ∀ (ts : List Transaction) (l : OnlineLearner),
      (ts.foldl (fun l t => l.learn t d) l).samples_seen =
        l.samples_seen + ts.length := by
  intro ts
  induction ts with
  | nil => intro l; simp
  | cons t ts ih =>
    intro l
    rw [List.foldl_cons, ih, learn_samples, List.length_cons]
    omega

/-- `is_confident` threads exactly the post-`predict` learner. -/
theorem is_confident_state (l : OnlineLearner) (t : Transaction) :
    (l.is_confident t).2 = (l.predict t).2 := rfl

/-- `is_confident` returns the pair computed by `predict`. -/
theorem is_confident_pair (l : OnlineLearner) (t : Transaction) :
    (l.is_confident t).1.2 = (l.predict t).1 := rfl

/-! ## C3: the dual confidence gate -/

/-- C3.  `is_confident` returns `True` exactly when the predicted confidence
reaches `confidence_threshold` and `samples_seen ≥ 20`; in particular it is
`False` whenever `samples_seen < 20`, whatever the raw confidence. -/
theorem is_confident_gate (l : OnlineLearner) (t : Transaction) :
    ((l.is_confident t).1.1 = true ↔
      l.confidence_threshold ≤ (l.is_confident t).1.2.2 ∧ 20 ≤ l.samples_seen) ∧
    (l.samples_seen < 20 → (l.is_confident t).1.1 = false) := by
  have hth := predict_threshold l t
  have hs := predict_samples l t
  constructor
  · simp only [OnlineLearner.is_confident, Bool.and_eq_true, decide_eq_true_eq,
      hth, hs]
  · intro hlt
    simp only [OnlineLearner.is_confident, Bool.and_eq_false_iff, hth, hs]
    right
    simpa using Nat.not_le.mpr hlt

/-- Witness for C3: the fresh learner has seen 0 < 20 samples, so the gate is
closed. -/
theorem is_confident_gate_witness :
    freshLearner.samples_seen < 20 ∧
    (freshLearner.is_confident (mkTxn 50)).1.1 = false :=
  ⟨by decide, (is_confident_gate freshLearner (mkTxn 50)).2 (by decide)⟩

/-! ## C6: `predict` absorbs errors and the untrained state -/

/-- C6.  `predict` is total (the `try`/`except` is embedded in the `Except`
result of the classifier): a raised prediction error and the empty probability
map of an untrained model both yield `(no_action, 0)` with the learner state
untouched. -/
theorem predict_fallback (l : OnlineLearner) (t : Transaction) :
    (∀ msg, l.model.predict_proba_one (extract_features t) = .error msg →
      l.predict t = ((ActionType.no_action, 0), l)) ∧
    (l.model.predict_proba_one (extract_features t) = .ok [] →
      l.predict t = ((ActionType.no_action, 0), l)) := by
  constructor
  · intro msg h
    simp [OnlineLearner.predict, h]
  · intro h
    simp [OnlineLearner.predict, h]

/-- Witness for C6: a backend whose prediction raises is downgraded to the
untrained response. -/
theorem predict_fallback_witness :
    errLearner.model.predict_proba_one (extract_features (mkTxn 50)) =
      .error "Prediction error" ∧
    errLearner.predict (mkTxn 50) = ((ActionType.no_action, 0), errLearner) :=
  ⟨rfl, (predict_fallback errLearner (mkTxn 50)).1 "Prediction error" rfl⟩

/-! ## C8: read-only calls do not move the counters -/

/-- C8.  Any sequence of `predict`/`get_stats` calls without an intervening
`learn` leaves `samples_seen` and `correct_predictions` unchanged, and a
`get_stats` call has no effect on the state at all. -/
theorem read_ops_preserve_counters :
    ∀ (ops : List ReadOp) (l : OnlineLearner),
      (runReadOps l ops).samples_seen = l.samples_seen ∧
      (runReadOps l ops).correct_predictions = l.correct_predictions ∧
      runReadOps l (.stats :: ops) = runReadOps l ops := by
  intro ops
  induction ops with
  | nil => intro l; exact ⟨rfl, rfl, rfl⟩
  | cons op ops ih =>
    intro l
    refine ⟨?_, ?_, rfl⟩
    · cases op with
      | pred t =>
        rw [show runReadOps l (.pred t :: ops) = runReadOps (l.predict t).2 ops from rfl,
          (ih (l.predict t).2).1, predict_samples]
      | stats => exact (ih l).1
    · cases op with
      | pred t =>
        rw [show runReadOps l (.pred t :: ops) = runReadOps (l.predict t).2 ops from rfl,
          (ih (l.predict t).2).2.1, predict_correct]
      | stats => exact (ih l).2.1

/-! ## C9: save/load round trip -/

/-- `takeLast` is the identity on lists no longer than the bound. -/
theorem takeLast_eq_self {α : Type} (n : ℕ) (xs : List α) (h : xs.length ≤ n) :
    takeLast n xs = xs := by
  unfold takeLast
  rw [Nat.sub_eq_zero_of_le h, List.drop_zero]

/-- `predictSeq` only looks at the classifier. -/
theorem predictSeq_of_model_eq :
    ∀ (ts : List Transaction) (l₁ l₂ : OnlineLearner), l₁.model = l₂.model →
      predictSeq l₁ ts = predictSeq l₂ ts := by
  intro ts
  induction ts with
  | nil => intro l₁ l₂ _; rfl
  | cons t ts ih =>
    intro l₁ l₂ h
    have h2 : ((l₁.predict t).2).model = ((l₂.predict t).2).model := by
      rw [predict_model, predict_model, h]
    show (l₁.predict t).1 :: predictSeq (l₁.predict t).2 ts =
      (l₂.predict t).1 :: predictSeq (l₂.predict t).2 ts
    rw [predict_fst_of_model_eq l₁ l₂ t h, ih _ _ h2]

/-- C9.  `load` after `save` (no intervening `learn`) restores `samples_seen`,
`correct_predictions`, the confidence history and the classifier state, and
the restored learner produces identical `predict` outputs on every fixed
sequence of test events.  (The history hypothesis holds in every state the
source can reach: the deque is bounded by 100.) -/
theorem save_load_roundtrip (l l' : OnlineLearner)
    (h : l.confidence_history.length ≤ 100) :
    (l'.load l.save).samples_seen = l.samples_seen ∧
    (l'.load l.save).correct_predictions = l.correct_predictions ∧
    (l'.load l.save).confidence_history = l.confidence_history ∧
    (l'.load l.save).model = l.model ∧
    ∀ ts, predictSeq (l'.load l.save) ts = predictSeq l ts := by
  refine ⟨rfl, rfl, ?_, rfl, ?_⟩
  · show takeLast 100 l.save.confidence_history = l.confidence_history
    exact takeLast_eq_self 100 l.confidence_history h
  · intro ts
    exact predictSeq_of_model_eq ts _ _ rfl

/-- Witness for C9: a learner with accumulated state restored into a fresh
learner reproduces its counters and its `predict` outputs. -/
theorem save_load_roundtrip_witness :
    exLearner.confidence_history.length ≤ 100 ∧
    (freshLearner.load exLearner.save).samples_seen = exLearner.samples_seen ∧
    predictSeq (freshLearner.load exLearner.save) [mkTxn 50] =
      predictSeq exLearner [mkTxn 50] :=
  ⟨by decide, (save_load_roundtrip exLearner freshLearner (by decide)).1,
    (save_load_roundtrip exLearner freshLearner (by decide)).2.2.2.2 [mkTxn 50]⟩

/-! ## C10: counter invariant and accuracy bounds -/

/-- Accuracy bounds follow from the counter invariant. -/
theorem accuracy_bounds (l : OnlineLearner)
    (h : l.correct_predictions ≤ l.samples_seen) :
    0 ≤ l.get_accuracy ∧ l.get_accuracy ≤ 1 := by
  unfold OnlineLearner.get_accuracy
  split
  · exact ⟨le_refl 0, zero_le_one⟩
  · rename_i hs
    have hpos : (0 : ℚ) < (l.samples_seen : ℚ) := by
      exact_mod_cast Nat.pos_of_ne_zero hs
    constructor
    · positivity
    · rw [div_le_one hpos]
      exact_mod_cast h

/-- C10.  Each `learn` call adds exactly 1 to `samples_seen` and at most 1 to
`correct_predictions`; hence in every state reachable from a fresh learner,
`correct_predictions ≤ samples_seen` and `get_accuracy` lies in `[0, 1]`. -/
theorem student_accuracy_invariant :
    (∀ (l : OnlineLearner) (t : Transaction) (d : Decision),
      (l.learn t d).samples_seen = l.samples_seen + 1 ∧
      (l.learn t d).correct_predictions ≤ l.correct_predictions + 1) ∧
    (∀ l, StudentReachable l →
      l.correct_predictions ≤ l.samples_seen ∧
      0 ≤ l.get_accuracy ∧ l.get_accuracy ≤ 1) := by
  have key : ∀ l, StudentReachable l → l.correct_predictions ≤ l.samples_seen := by
    intro l h
    induction h with
    | init th m => exact le_refl 0
    | predictStep t _ ih =>
      rw [predict_samples, predict_correct]; exact ih
    | learnStep t d _ ih =>
      calc _ ≤ _ + 1 := learn_correct_le _ t d
        _ ≤ _ + 1 := Nat.add_le_add_right ih 1
        _ = _ := (learn_samples _ t d).symm
  exact ⟨fun l t d => ⟨learn_samples l t d, learn_correct_le l t d⟩,
    fun l h => ⟨key l h, accuracy_bounds l (key l h)⟩⟩

/-- Witness for C10: the invariant instantiated at a fresh learner. -/
theorem student_accuracy_invariant_witness :
    freshLearner.correct_predictions ≤ freshLearner.samples_seen ∧
    0 ≤ freshLearner.get_accuracy ∧ freshLearner.get_accuracy ≤ 1 :=
  student_accuracy_invariant.2 freshLearner (StudentReachable.init _ _)

/-! ## C4: the escalation cycle -/

/-- `is_confident` preserves `samples_seen` (through its internal
`predict`). -/
theorem is_confident_samples (l : OnlineLearner) (t : Transaction) :
    ((l.is_confident t).2).samples_seen = l.samples_seen := by
  rw [is_confident_state, predict_samples]

/-- C4.  When escalation fires on the buffered batch (the stored failures plus
the incoming one), exactly one decision — the council's final decision — is
emitted together with the debate; the Student is trained once per buffered
event with that single decision as the shared label, so `samples_seen` grows
by exactly the batch size; and the buffer is cleared. -/
theorem escalation_batch (cfg : AppConfig)
    (council : List Transaction → CouncilDebate) (s : RouterState)
    (txn : Transaction) (hfail : txn.status = .failed)
    (hnc : (s.learner.is_confident txn).1.1 = false)
    (hth : cfg.failure_threshold ≤ s.recent_failures.length + 1) :
    (process_transaction cfg council s txn).decision =
      some (council (s.recent_failures ++ [txn])).final_decision ∧
    (process_transaction cfg council s txn).debate =
      some (council (s.recent_failures ++ [txn])) ∧
    (process_transaction cfg council s txn).state.recent_failures = [] ∧
    (process_transaction cfg council s txn).state.learner =
      (s.recent_failures ++ [txn]).foldl
        (fun l t => l.learn t (council (s.recent_failures ++ [txn])).final_decision)
        ((s.learner.is_confident txn).2) ∧
    (process_transaction cfg council s txn).state.learner.samples_seen =
      s.learner.samples_seen + (s.recent_failures.length + 1) := by
  unfold process_transaction
  simp [hfail, hnc, hth]
  rw [learn_samples, foldl_learn_samples, is_confident_samples]
  omega

/-- Witness for C4: at threshold 1 a single failure on an untrained Student
fires immediately; one teacher-side decision, one training call, empty
buffer. -/
theorem escalation_batch_witness :
    (stateOne.learner.is_confident (mkTxn 50)).1.1 = false ∧
    (process_transaction cfgOne councilProbe stateOne (mkTxn 50)).state.recent_failures
      = [] ∧
    (process_transaction cfgOne councilProbe stateOne (mkTxn 50)).state.learner.samples_seen
      = stateOne.learner.samples_seen + (stateOne.recent_failures.length + 1) :=
  ⟨by decide,
    (escalation_batch cfgOne councilProbe stateOne (mkTxn 50) rfl (by decide)
      (by decide)).2.2.1,
    (escalation_batch cfgOne councilProbe stateOne (mkTxn 50) rfl (by decide)
      (by decide)).2.2.2.2⟩

/-! ## C1: buffer length at the moment of escalation -/

set_option maxRecDepth 100000 in
/-- Counterexample for C1: starting from a fresh router at the source
configuration (threshold 5), after 25 failed transactions the buffer already
holds 5 events (the last 5 took the fast path but were appended anyway); the
26th failure fires escalation on a 6-element buffer — the council is invoked
on 6 events, exceeding the threshold of 5. -/
theorem escalation_over_threshold_cex :
    defaultConfig.failure_threshold = 5 ∧
    cexState25.recent_failures.length = 5 ∧
    cexOut26.debate.isSome = true ∧
    cexOut26.debate.map CouncilDebate.debate_duration_ms = some 6 ∧
    cexOut26.state.recent_failures.length = 0 := by
  decide

/-- C1 as amended: whenever escalation fires (a debate is emitted), the buffer
it fired on holds *at least* the configured threshold — it may exceed it,
since fast-path failures are also appended and retained — and immediately
after the escalation the buffer is exactly empty. -/
theorem escalation_fire_bound (cfg : AppConfig)
    (council : List Transaction → CouncilDebate) (s : RouterState)
    (txn : Transaction)
    (h : (process_transaction cfg council s txn).debate.isSome = true) :
    cfg.failure_threshold ≤ s.recent_failures.length + 1 ∧
    (process_transaction cfg council s txn).state.recent_failures = [] := by
  unfold process_transaction at h ⊢
  by_cases hf : txn.status = TransactionStatus.failed
  · by_cases hc : (s.learner.is_confident txn).1.1 = true
    · simp [hf, hc] at h
    · rw [Bool.not_eq_true] at hc
      by_cases hth : cfg.failure_threshold ≤ s.recent_failures.length + 1
      · refine ⟨hth, ?_⟩
        simp [hf, hc, hth]
      · simp [hf, hc, hth] at h
  · simp [hf] at h

/-- Witness for the amended C1: at threshold 1 the single-failure escalation
fires with buffer length 1 ≥ 1 and leaves the buffer empty. -/
theorem escalation_fire_bound_witness :
    cfgOne.failure_threshold ≤ stateOne.recent_failures.length + 1 ∧
    (process_transaction cfgOne councilProbe stateOne (mkTxn 50)).state.recent_failures
      = [] :=
  escalation_fire_bound cfgOne councilProbe stateOne (mkTxn 50) (by decide)

/-! ## C2: the fast path and the buffer -/

set_option maxRecDepth 100000 in
/-- Counterexample for C2: in a reachable state (after 20 failures the buffer
is empty and the Student is warmed up and fully confident on small amounts),
the 21st failure takes the fast path — a student-sourced decision is emitted —
yet the buffer grows from 0 to 1: the fast-path event *was* appended. -/
theorem fast_path_buffer_cex :
    cexState20.recent_failures.length = 0 ∧
    cexOut21.decision.map Decision.agent_source = some AgentSource.student ∧
    cexOut21.state.recent_failures.length = 1 := by
  decide

/-- C2 as amended: every failed event is appended to the buffer *before* the
confidence gate; on the fast path the Student's decision (its predicted
action, at its reported confidence, tagged `student`) is emitted, no debate
occurs, no training happens — but the buffer retains the event. -/
theorem fast_path_appends (cfg : AppConfig)
    (council : List Transaction → CouncilDebate) (s : RouterState)
    (txn : Transaction) (hfail : txn.status = .failed)
    (hconf : (s.learner.is_confident txn).1.1 = true) :
    (process_transaction cfg council s txn).state.recent_failures =
      s.recent_failures ++ [txn] ∧
    (process_transaction cfg council s txn).decision.map Decision.agent_source =
      some AgentSource.student ∧
    (process_transaction cfg council s txn).decision.map Decision.action =
      some (s.learner.is_confident txn).1.2.1 ∧
    (process_transaction cfg council s txn).decision.map Decision.confidence_score =
      some (s.learner.is_confident txn).1.2.2 ∧
    (process_transaction cfg council s txn).debate = none ∧
    (process_transaction cfg council s txn).state.learner =
      (s.learner.is_confident txn).2 := by
  unfold process_transaction
  simp [hfail, hconf]

/-- Witness for the amended C2: a warmed-up, fully confident learner on a
failure — fast path taken, buffer grows by the event. -/
theorem fast_path_appends_witness :
    (confState.learner.is_confident (mkTxn 50)).1.1 = true ∧
    (process_transaction defaultConfig councilProbe confState (mkTxn 50)).state.recent_failures
      = confState.recent_failures ++ [mkTxn 50] ∧
    (process_transaction defaultConfig councilProbe confState (mkTxn 50)).decision.map
      Decision.agent_source = some AgentSource.student :=
  ⟨by decide,
    (fast_path_appends defaultConfig councilProbe confState (mkTxn 50) rfl
      (by decide)).1,
    (fast_path_appends defaultConfig councilProbe confState (mkTxn 50) rfl
      (by decide)).2.1⟩

/-! ## C7: non-failed events -/

set_option maxRecDepth 100000 in
/-- Counterexample for C7: a pending-status event never yields a decision but
*is* appended to the escalation buffer (the source counts every non-success
event as a failure). -/
theorem pending_append_cex :
    pendTxn.status ≠ TransactionStatus.failed ∧
    (process_transaction defaultConfig councilProbe cexState0 pendTxn).state.recent_failures
      = [pendTxn] ∧
    (process_transaction defaultConfig councilProbe cexState0 pendTxn).decision = none := by
  decide

/-- C7 as amended: an event whose status is not `failed` never yields a
decision or a debate and never touches the Student; a `success` event leaves
the buffer unchanged, but a `pending` event is appended to it. -/
theorem non_failed_no_decision (cfg : AppConfig)
    (council : List Transaction → CouncilDebate) (s : RouterState)
    (txn : Transaction) (h : txn.status ≠ .failed) :
    (process_transaction cfg council s txn).decision = none ∧
    (process_transaction cfg council s txn).debate = none ∧
    (process_transaction cfg council s txn).state.learner = s.learner ∧
    (txn.status = .success →
      (process_transaction cfg council s txn).state.recent_failures =
        s.recent_failures) ∧
    (txn.status = .pending →
      (process_transaction cfg council s txn).state.recent_failures =
        s.recent_failures ++ [txn]) := by
  unfold process_transaction
  cases hs : txn.status with
  | success => simp [hs]
  | failed => exact absurd hs h
  | pending => simp [hs]

/-- Witness for the amended C7: a success event produces no decision and
leaves the buffer as it was. -/
theorem non_failed_no_decision_witness :
    (process_transaction defaultConfig councilProbe cexState0 succTxn).decision = none ∧
    (process_transaction defaultConfig councilProbe cexState0 succTxn).state.recent_failures
      = cexState0.recent_failures :=
  ⟨(non_failed_no_decision defaultConfig councilProbe cexState0 succTxn
      (by decide)).1,
    (non_failed_no_decision defaultConfig councilProbe cexState0 succTxn
      (by decide)).2.2.2.1 rfl⟩

/-! ## C5: council deliberation -/

set_option maxRecDepth 1000000 in
/-- The scanner finds the six intended replacement fields of the manager
template — and then a seventh "field" opened by the unescaped literal `{` of
the JSON example, whose name is not among the format arguments. -/
theorem manager_prompt_missing :
    firstMissing (parseTokens MANAGER_AGENT_PROMPT.data)
      ["risk_argument", "growth_argument", "failed_count", "common_error",
       "affected_banks", "total_amount"] = some "\n    \"synthesis\"" := by
  decide

/-- `lookupArg` fails exactly on keys absent from the argument list. -/
theorem lookupArg_none_iff (args : List (String × String)) (k : String) :
    lookupArg args k = none ↔ k ∉ args.map Prod.fst := by
  induction args with
  | nil => simp [lookupArg]
  | cons a args ih =>
    unfold lookupArg at ih ⊢
    by_cases h : a.1 = k
    · rw [List.find?_cons_of_pos _ (by simp [h])]
      simp [h]
    · rw [List.find?_cons_of_neg _ (by simp [h])]
      rw [show (k ∉ List.map Prod.fst (a :: args)) ↔ (k ∉ List.map Prod.fst args) by
        simp only [List.map_cons, List.mem_cons, not_or]
        exact ⟨fun hh => hh.2, fun hh => ⟨fun hk => h hk.symm, hh⟩⟩]
      exact ih

/-- A key present among the argument names is looked up successfully. -/
theorem lookupArg_isSome_of_mem (args : List (String × String)) (k : String)
    (h : k ∈ args.map Prod.fst) : ∃ v, lookupArg args k = some v := by
  cases hl : lookupArg args k with
  | none => exact absurd ((lookupArg_none_iff args k).mp hl) (by simp [h])
  | some v => exact ⟨v, rfl⟩

/-- Rendering raises `KeyError` on the first replacement field whose name is
missing from the keyword arguments, whatever the argument values are. -/
theorem renderTokens_missing (args : List (String × String)) :
    ∀ (toks : List FmtToken) (k : String),
      firstMissing toks (args.map Prod.fst) = some k →
      renderTokens args toks = .error (.keyError k) := by
  intro toks
  induction toks with
  | nil => intro k h; exact absurd h (by simp [firstMissing])
  | cons t rest ih =>
    intro k h
    cases t with
    | lit s =>
      have h2 : firstMissing rest (args.map Prod.fst) = some k := h
      show (renderTokens args rest).map (s ++ ·) = _
      rw [ih k h2]
      rfl
    | field kf =>
      unfold firstMissing at h
      by_cases hm : kf ∈ args.map Prod.fst
      · rw [if_pos hm] at h
        obtain ⟨v, hv⟩ := lookupArg_isSome_of_mem args kf hm
        unfold renderTokens
        rw [hv, ih k h]
        rfl
      · rw [if_neg hm] at h
        have hk := Option.some.inj h
        have hn : lookupArg args kf = none := (lookupArg_none_iff args kf).mpr hm
        unfold renderTokens
        rw [hn, hk]

/-- `MANAGER_AGENT_PROMPT.format(...)` raises
`KeyError('\n    "synthesis"')` for every choice of the six argument values:
the literal JSON braces of the template are parsed as a replacement field. -/
theorem manager_format_raises (v1 v2 v3 v4 v5 v6 : String) :
    formatStr MANAGER_AGENT_PROMPT
      [("risk_argument", v1), ("growth_argument", v2), ("failed_count", v3),
       ("common_error", v4), ("affected_banks", v5), ("total_amount", v6)] =
      .error (.keyError "\n    \"synthesis\"") := by
  apply renderTokens_missing
  simp only [List.map_cons, List.map_nil]
  exact manager_prompt_missing

/-- C5 (code bug).  `LLMCouncil.debate` never completes: for every backend
behaviour and every batch it raises before producing a `CouncilDebate` —
formatting the manager prompt raises `KeyError` on the unescaped JSON braces
(or, earlier, `ValueError` on an unrecognised action string).  In particular,
under total backend failure (every role call failing, each absorbed into the
neutral fallback by `_call_agent`) the deliberation still dies with
`KeyError('\n    "synthesis"')` instead of degrading to a no-action
decision. -/
theorem llm_debate_always_raises :
    (∀ (groq : GroqBackend) (txns : List Transaction),
      (LLMCouncil.debate groq txns).isOk = false) ∧
    (∀ txns : List Transaction,
      LLMCouncil.debate groqFail txns =
        Except.error (PyError.keyError "\n    \"synthesis\"")) := by
  constructor
  · intro groq txns
    unfold LLMCouncil.debate
    cases h1 : ActionType.fromString
        ((LLMCouncil.call_agent groq RISK_AGENT_PROMPT
          (prepareContext txns)).suggested_action.getD "no_action") with
    | none => simp [h1, Except.isOk, Except.toBool]
    | some a1 =>
      cases h2 : ActionType.fromString
          ((LLMCouncil.call_agent groq GROWTH_AGENT_PROMPT
            (prepareContext txns)).suggested_action.getD "no_action") with
      | none => simp [h1, h2, Except.isOk, Except.toBool]
      | some a2 => simp [h1, h2, manager_format_raises, Except.isOk, Except.toBool]
  · intro txns
    have hca : ∀ sp ctx, LLMCouncil.call_agent groqFail sp ctx =
        { stance := some "moderate",
          argument := some "Unable to analyze due to API error",
          suggested_action := some "no_action" } := fun _ _ => rfl
    unfold LLMCouncil.debate
    simp [hca, ActionType.fromString, manager_format_raises]

end PaymentOps
